import Mathlib

/-!
Verification of the animation-timeline evaluation model and related plumbing of
the ui-studio repository.

The embedding translates:
* the timeline data model from `ui-base/src/types/timeline.ts`;
* the per-frame timeline state resolution performed by `DashboardComposition`
  (filtering, signed spring accumulation, last-writer-wins expansion flag,
  two-event position chaining);
* the timeline HTTP save endpoint of the editor dev-server plugin;
* the composition registration in `Root.tsx`;
* the GPU setup effect and the shader pass list declared in `App`.

Numbers are modelled as rationals.  The external Remotion `spring` function is
not part of this repository; every definition that calls it is parameterized by
an arbitrary evaluator of type `SpringFn`, mirroring the fact that the source
imports it as an opaque pure function of `(fps, frame, config)`.
-/

namespace UiStudio

/-- Spring configuration attached to an event (`SpringConfig` in timeline.ts). -/
structure SpringConfig where
  stiffness : ℚ
  damping : ℚ
  mass : ℚ
deriving DecidableEq

/-- One timeline event (`TimelineData.events` element in timeline.ts).  The
source params field maps strings to `number | string | boolean`; position
coordinates are numbers and the JS `Number` coercion is the identity on
numbers, so params is modelled as an association list of numeric parameters. -/
structure TimelineEvent where
  id : String
  frame : ℕ
  componentId : String
  action : String
  params : List (String × ℚ)
  spring : Option SpringConfig
deriving DecidableEq

/-- The timeline document (`TimelineData` in timeline.ts). -/
structure TimelineData where
  version : ℤ
  fps : ℤ
  durationFrames : ℤ
  canvas : Option (ℚ × ℚ)
  events : List TimelineEvent
deriving DecidableEq

/-- Type of the external Remotion spring evaluator, as called in
`DashboardComposition`: arguments are `fps`, the elapsed frame delta
`frame - event.frame`, and the spring config (`from: 0, to: 1` fixed). -/
abbrev SpringFn := ℤ → ℤ → SpringConfig → ℚ

/-- `DEFAULT_SPRING` of DashboardComposition.tsx. -/
def DEFAULT_SPRING : SpringConfig := ⟨280, 24, 1⟩

/-- The config actually passed to `spring`: `e.spring ?? DEFAULT_SPRING`. -/
def cfgOf (e : TimelineEvent) : SpringConfig := e.spring.getD DEFAULT_SPRING

/-- `glassEvents`: events of component GlassPanel that have fired
(`e.componentId === 'GlassPanel' && e.frame <= frame`). -/
def glassEvents (doc : TimelineData) (frame : ℕ) : List TimelineEvent :=
  doc.events.filter (fun e => e.componentId == "GlassPanel" && decide (e.frame ≤ frame))

/-- `expandEvents`: fired GlassPanel events with action Expand. -/
def expandEvents (doc : TimelineData) (frame : ℕ) : List TimelineEvent :=
  (glassEvents doc frame).filter (fun e => e.action == "Expand")

/-- `collapseEvents`: fired GlassPanel events with action Collapse. -/
def collapseEvents (doc : TimelineData) (frame : ℕ) : List TimelineEvent :=
  (glassEvents doc frame).filter (fun e => e.action == "Collapse")

/-- The `reduce` accumulating per-event spring progress:
`l.reduce((sum, e) => sum + spring({fps, frame: frame - e.frame, config: e.spring ?? DEFAULT_SPRING}), 0)`. -/
def springSum (sf : SpringFn) (fps : ℤ) (frame : ℕ) (l : List TimelineEvent) : ℚ :=
  l.foldl (fun sum e => sum + sf fps ((frame : ℤ) - (e.frame : ℤ)) (cfgOf e)) 0

/-- `expandSum` of DashboardComposition. -/
def expandSum (sf : SpringFn) (doc : TimelineData) (fps : ℤ) (frame : ℕ) : ℚ :=
  springSum sf fps frame (expandEvents doc frame)

/-- `collapseSum` of DashboardComposition. -/
def collapseSum (sf : SpringFn) (doc : TimelineData) (fps : ℤ) (frame : ℕ) : ℚ :=
  springSum sf fps frame (collapseEvents doc frame)

/-- `netExpansion = Math.max(0, Math.min(1, expandSum - collapseSum))`. -/
def netExpansion (sf : SpringFn) (doc : TimelineData) (fps : ℤ) (frame : ℕ) : ℚ :=
  max 0 (min 1 (expandSum sf doc fps frame - collapseSum sf doc fps frame))

/-- `sizeMultiplier = 1 + netExpansion * 0.8`. -/
def sizeMultiplier (sf : SpringFn) (doc : TimelineData) (fps : ℤ) (frame : ℕ) : ℚ :=
  1 + netExpansion sf doc fps frame * (4 / 5)

/-- `lastExpandFrame = expandEvents.reduce((max, e) => Math.max(max, e.frame), -1)`. -/
def lastExpandFrame (doc : TimelineData) (frame : ℕ) : ℤ :=
  (expandEvents doc frame).foldl (fun m e => max m (e.frame : ℤ)) (-1)

/-- `lastCollapseFrame = collapseEvents.reduce((max, e) => Math.max(max, e.frame), -1)`. -/
def lastCollapseFrame (doc : TimelineData) (frame : ℕ) : ℤ :=
  (collapseEvents doc frame).foldl (fun m e => max m (e.frame : ℤ)) (-1)

/-- `isExpanded = lastExpandFrame > lastCollapseFrame`. -/
def isExpanded (doc : TimelineData) (frame : ℕ) : Bool :=
  decide (lastExpandFrame doc frame > lastCollapseFrame doc frame)

/-- Stable insertion into a frame-sorted list: the new element goes before the
first element with a frame that is not smaller. -/
def insertByFrame (e : TimelineEvent) : List TimelineEvent → List TimelineEvent
  | [] => [e]
  | f :: fs => if e.frame ≤ f.frame then e :: f :: fs else f :: insertByFrame e fs

/-- Stable ascending sort by frame, modelling the JS
`[...].sort((a, b) => a.frame - b.frame)` (Array.prototype.sort is stable and
this comparator orders by frame). -/
def sortByFrame : List TimelineEvent → List TimelineEvent
  | [] => []
  | e :: es => insertByFrame e (sortByFrame es)

/-- `firedPositionEvents`: fired GlassPanel SetPosition events, sorted by frame. -/
def firedPositionEvents (doc : TimelineData) (frame : ℕ) : List TimelineEvent :=
  sortByFrame (doc.events.filter (fun e =>
    e.componentId == "GlassPanel" && e.action == "SetPosition" && decide (e.frame ≤ frame)))

/-- `Number(e.params.k ?? d)` for a numeric parameter record. -/
def getParam (e : TimelineEvent) (key : String) (d : ℚ) : ℚ :=
  (e.params.lookup key).getD d

/-- The position branch of DashboardComposition (lines 78-93): `panelX`/`panelY`
are set only when at least one position event has fired; `latest` is the last
element of the sorted fired list, `prev` the one before it when present. -/
def resolvePosition (sf : SpringFn) (doc : TimelineData) (fps : ℤ) (frame : ℕ)
    (width height : ℚ) : Option (ℚ × ℚ) :=
  let fired := firedPositionEvents doc frame
  match fired[fired.length - 1]? with
  | none => none
  | some latest =>
    let prev : Option TimelineEvent :=
      if fired.length > 1 then fired[fired.length - 2]? else none
    let defaultX := (width - 259) / 2
    let defaultY := (height - 124) / 2
    let targetX := getParam latest "x" defaultX
    let targetY := getParam latest "y" defaultY
    let startX := match prev with | some p => getParam p "x" defaultX | none => defaultX
    let startY := match prev with | some p => getParam p "y" defaultY | none => defaultY
    let t := sf fps ((frame : ℤ) - (latest.frame : ℤ)) (cfgOf latest)
    some (startX + (targetX - startX) * t, startY + (targetY - startY) * t)

/-- The `timelineState` struct handed to the rendering layer
(`TimelineState` in designSystem.ts / App). -/
structure VisualState where
  sizeMultiplier : ℚ
  isExpanded : Bool
  panelX : Option ℚ
  panelY : Option ℚ
deriving DecidableEq

/-- Full per-frame timeline state resolution of DashboardComposition:
`{ sizeMultiplier, isExpanded, panelX, panelY }`. -/
def resolveState (sf : SpringFn) (doc : TimelineData) (fps : ℤ) (frame : ℕ)
    (width height : ℚ) : VisualState :=
  let pos := resolvePosition sf doc fps frame width height
  { sizeMultiplier := UiStudio.sizeMultiplier sf doc fps frame
    isExpanded := UiStudio.isExpanded doc frame
    panelX := pos.map Prod.fst
    panelY := pos.map Prod.snd }

lemma foldl_add_map {α : Type} (f : α → ℚ) (l : List α) (a : ℚ) :
    l.foldl (fun s e => s + f e) a = a + (l.map f).sum := by
  induction l generalizing a with
  | nil => simp
  | cons e es ih => simp [ih, add_assoc]

def specExpandSum (sf : SpringFn) (doc : TimelineData) (fps : ℤ) (t : ℕ) : ℚ :=
  ((doc.events.filter (fun e =>
      e.componentId == "GlassPanel" && e.action == "Expand" && decide (e.frame ≤ t))).map
    (fun e => sf fps ((t : ℤ) - (e.frame : ℤ)) (cfgOf e))).sum

def specCollapseSum (sf : SpringFn) (doc : TimelineData) (fps : ℤ) (t : ℕ) : ℚ :=
  ((doc.events.filter (fun e =>
      e.componentId == "GlassPanel" && e.action == "Collapse" && decide (e.frame ≤ t))).map
    (fun e => sf fps ((t : ℤ) - (e.frame : ℤ)) (cfgOf e))).sum

lemma expandEvents_eq_filter (doc : TimelineData) (t : ℕ) :
    expandEvents doc t = doc.events.filter (fun e =>
      e.componentId == "GlassPanel" && e.action == "Expand" && decide (e.frame ≤ t)) := by
  unfold expandEvents glassEvents
  rw [List.filter_filter]
  apply List.filter_congr
  intro e _
  cases h1 : e.componentId == "GlassPanel" <;> cases h2 : e.action == "Expand" <;>
    cases h3 : decide (e.frame ≤ t) <;> simp [h1, h2, h3]

lemma collapseEvents_eq_filter (doc : TimelineData) (t : ℕ) :
    collapseEvents doc t = doc.events.filter (fun e =>
      e.componentId == "GlassPanel" && e.action == "Collapse" && decide (e.frame ≤ t)) := by
  unfold collapseEvents glassEvents
  rw [List.filter_filter]
  apply List.filter_congr
  intro e _
  cases h1 : e.componentId == "GlassPanel" <;> cases h2 : e.action == "Collapse" <;>
    cases h3 : decide (e.frame ≤ t) <;> simp [h1, h2, h3]

lemma expandSum_eq_spec (sf : SpringFn) (doc : TimelineData) (fps : ℤ) (t : ℕ) :
    expandSum sf doc fps t = specExpandSum sf doc fps t := by
  unfold expandSum springSum specExpandSum
  rw [expandEvents_eq_filter, foldl_add_map, zero_add]

lemma collapseSum_eq_spec (sf : SpringFn) (doc : TimelineData) (fps : ℤ) (t : ℕ) :
    collapseSum sf doc fps t = specCollapseSum sf doc fps t := by
  unfold collapseSum springSum specCollapseSum
  rw [collapseEvents_eq_filter, foldl_add_map, zero_add]

theorem accumulator_clamped_signed_sum (sf : SpringFn) (doc : TimelineData) (fps : ℤ) (t : ℕ) :
    netExpansion sf doc fps t
        = max 0 (min 1 (specExpandSum sf doc fps t - specCollapseSum sf doc fps t)) ∧
    0 ≤ netExpansion sf doc fps t ∧ netExpansion sf doc fps t ≤ 1 := by
  refine ⟨?_, ?_, ?_⟩
  · rw [netExpansion, expandSum_eq_spec, collapseSum_eq_spec]
  · exact le_max_left 0 _
  · exact max_le zero_le_one (min_le_left 1 _)

/-- The largest frame occurring in a list of events, `none` for the empty
list: the specification notion of the most recent event by frame. -/
def maxFrame? : List TimelineEvent → Option ℕ
  | [] => none
  | e :: es =>
    match maxFrame? es with
    | none => some e.frame
    | some m => some (max e.frame m)

lemma neg_one_max_cast (n : ℕ) : max (-1 : ℤ) (n : ℤ) = n :=
  max_eq_right (by omega)

lemma foldl_max_frames (l : List TimelineEvent) (a : ℤ) :
    l.foldl (fun m e => max m (e.frame : ℤ)) a =
      match maxFrame? l with
      | none => a
      | some m => max a (m : ℤ) := by
  induction l generalizing a with
  | nil => rfl
  | cons e es ih =>
    simp only [List.foldl_cons, ih, maxFrame?]
    cases hm : maxFrame? es with
    | none => rfl
    | some m => simp [Nat.cast_max, max_assoc]

/-- C2: the resolved `isExpanded` flag is true iff the most recent fired
expand-class event is strictly more recent (by frame) than the most recent
fired collapse-class event; it is false when no expand-class event has fired,
and in particular false when the two most recent frames coincide. -/
theorem isExpanded_last_writer_wins (doc : TimelineData) (t : ℕ) :
    isExpanded doc t = true ↔
      (match maxFrame? (expandEvents doc t), maxFrame? (collapseEvents doc t) with
       | none, _ => False
       | some _, none => True
       | some me, some mc => mc < me) := by
  unfold isExpanded lastExpandFrame lastCollapseFrame
  rw [foldl_max_frames, foldl_max_frames]
  rcases hE : maxFrame? (expandEvents doc t) with _ | me <;>
    rcases hC : maxFrame? (collapseEvents doc t) with _ | mc <;>
      simp only [neg_one_max_cast, decide_eq_true_eq, gt_iff_lt]
  · exact iff_false_intro (lt_irrefl _)
  · exact iff_false_intro (fun h => by have := Int.natCast_nonneg mc; omega)
  · exact iff_true_intro (by have := Int.natCast_nonneg me; omega)
  · exact Nat.cast_lt

lemma glassEvents_cons_future (doc : TimelineData) (t : ℕ) (e : TimelineEvent)
    (hfut : t < e.frame) :
    glassEvents { doc with events := e :: doc.events } t = glassEvents doc t := by
  unfold glassEvents
  rw [List.filter_cons_of_neg]
  simp [Nat.not_le.mpr hfut]

lemma glassEvents_all_future (doc : TimelineData) (t : ℕ)
    (hall : ∀ e ∈ doc.events, t < e.frame) :
    glassEvents doc t = [] := by
  unfold glassEvents
  apply List.filter_eq_nil_iff.mpr
  intro e he
  simp [Nat.not_le.mpr (hall e he)]

/-- C5: events with `frame > queryTime` contribute exactly 0 to the
accumulator (adding a future event leaves `netExpansion` unchanged), and when
no event of the document has fired yet the accumulator output is exactly 0. -/
theorem accumulator_no_lookahead (sf : SpringFn) (doc : TimelineData) (fps : ℤ)
    (t : ℕ) (e : TimelineEvent) :
    (t < e.frame →
      netExpansion sf { doc with events := e :: doc.events } fps t
        = netExpansion sf doc fps t) ∧
    ((∀ e2 ∈ doc.events, t < e2.frame) → netExpansion sf doc fps t = 0) := by
  constructor
  · intro hfut
    unfold netExpansion expandSum collapseSum expandEvents collapseEvents
    rw [glassEvents_cons_future doc t e hfut]
  · intro hall
    unfold netExpansion expandSum collapseSum expandEvents collapseEvents
    rw [glassEvents_all_future doc t hall]
    simp [springSum]

def sfHalf : SpringFn := fun _ _ _ => 1 / 2

/-- A document whose only event has not fired at frame 5. -/
def futDoc : TimelineData :=
  ⟨1, 60, 360, none, [⟨"f1", 9, "GlassPanel", "Expand", [], none⟩]⟩

/-- A loose future event used to exercise the no-lookahead property. -/
def futEvt : TimelineEvent := ⟨"f2", 7, "GlassPanel", "Expand", [], none⟩

theorem accumulator_no_lookahead_witness :
    netExpansion sfHalf { futDoc with events := futEvt :: futDoc.events } 60 5
        = netExpansion sfHalf futDoc 60 5 ∧
    netExpansion sfHalf futDoc 60 5 = 0 :=
  ⟨(accumulator_no_lookahead sfHalf futDoc 60 5 futEvt).1 (by decide),
   (accumulator_no_lookahead sfHalf futDoc 60 5 futEvt).2 (by decide)⟩

/-- C10: the `sizeMultiplier` delivered to the rendering layer equals
`1 + netExpansion * 0.8` with `netExpansion` clamped to `[0, 1]`, hence it
always lies in the closed interval `[1, 1.8]`. -/
theorem sizeMultiplier_bounded (sf : SpringFn) (doc : TimelineData) (fps : ℤ)
    (t : ℕ) (w h : ℚ) :
    (resolveState sf doc fps t w h).sizeMultiplier
        = 1 + netExpansion sf doc fps t * (4 / 5) ∧
    1 ≤ (resolveState sf doc fps t w h).sizeMultiplier ∧
    (resolveState sf doc fps t w h).sizeMultiplier ≤ 9 / 5 := by
  have h0 : 0 ≤ netExpansion sf doc fps t := le_max_left 0 _
  have h1 : netExpansion sf doc fps t ≤ 1 := max_le zero_le_one (min_le_left 1 _)
  have hs : (resolveState sf doc fps t w h).sizeMultiplier
      = 1 + netExpansion sf doc fps t * (4 / 5) := rfl
  exact ⟨hs, by rw [hs]; linarith, by rw [hs]; linarith⟩

/-- A single fired SetPosition event with explicit target coordinates. -/
def posEvt : TimelineEvent :=
  ⟨"p1", 0, "GlassPanel", "SetPosition", [("x", 100), ("y", 50)], none⟩

/-- A document with exactly one position event. -/
def onePosDoc : TimelineData := ⟨1, 60, 360, none, [posEvt]⟩

/-- C4 counterexample: two evaluations agreeing on (document, componentId,
frame, fps) but differing in canvas width resolve to different `panelX`,
because the default origin of a single-event interpolation is computed from
the canvas size.  So the output is not a function of the quadruple alone. -/
theorem resolve_not_independent_of_canvas :
    (resolveState sfHalf onePosDoc 60 10 3840 536).panelX
      ≠ (resolveState sfHalf onePosDoc 60 10 1000 536).panelX := by
  have hfired : firedPositionEvents onePosDoc 10 = [posEvt] := by decide
  simp only [resolveState, resolvePosition, hfired]
  norm_num [getParam, posEvt, cfgOf, sfHalf]

/-- C4 amended: timeline state resolution is a pure deterministic function of
(document, componentId, query frame, fps, canvas width, canvas height) given
the spring evaluator: repeated evaluation at identical inputs yields
bit-identical outputs for every field. -/
theorem resolve_pure_deterministic (sf : SpringFn) (doc : TimelineData)
    (fps : ℤ) (t : ℕ) (w h : ℚ) :
    (resolveState sf doc fps t w h).sizeMultiplier
        = (resolveState sf doc fps t w h).sizeMultiplier ∧
    (resolveState sf doc fps t w h).isExpanded
        = (resolveState sf doc fps t w h).isExpanded ∧
    (resolveState sf doc fps t w h).panelX
        = (resolveState sf doc fps t w h).panelX ∧
    (resolveState sf doc fps t w h).panelY
        = (resolveState sf doc fps t w h).panelY ∧
    resolveState sf doc fps t w h = resolveState sf doc fps t w h :=
  ⟨rfl, rfl, rfl, rfl, rfl⟩

/-- C3: position resolution by cases on the fired SetPosition events.  With
none fired the position is undefined; with exactly one fired it interpolates
from the caller-supplied default origin toward that event target using that
event spring progress; with two or more fired it interpolates from the
second-most-recent event target toward the most-recent event target using the
most-recent event spring progress, and any earlier events in the chain are
irrelevant to the result. -/
theorem position_chains_last_two (sf : SpringFn) (doc : TimelineData) (fps : ℤ)
    (t : ℕ) (w h : ℚ) :
    (firedPositionEvents doc t = [] → resolvePosition sf doc fps t w h = none) ∧
    (∀ e, firedPositionEvents doc t = [e] →
      resolvePosition sf doc fps t w h =
        some ((w - 259) / 2 + (getParam e "x" ((w - 259) / 2) - (w - 259) / 2)
                * sf fps ((t : ℤ) - (e.frame : ℤ)) (cfgOf e),
              (h - 124) / 2 + (getParam e "y" ((h - 124) / 2) - (h - 124) / 2)
                * sf fps ((t : ℤ) - (e.frame : ℤ)) (cfgOf e))) ∧
    (∀ l p q, firedPositionEvents doc t = l ++ [p, q] →
      resolvePosition sf doc fps t w h =
        some (getParam p "x" ((w - 259) / 2)
                + (getParam q "x" ((w - 259) / 2) - getParam p "x" ((w - 259) / 2))
                  * sf fps ((t : ℤ) - (q.frame : ℤ)) (cfgOf q),
              getParam p "y" ((h - 124) / 2)
                + (getParam q "y" ((h - 124) / 2) - getParam p "y" ((h - 124) / 2))
                  * sf fps ((t : ℤ) - (q.frame : ℤ)) (cfgOf q))) := by
  refine ⟨?_, ?_, ?_⟩
  · intro hnil
    simp only [resolvePosition, hnil]
    rfl
  · intro e he
    simp only [resolvePosition, he]
    rfl
  · intro l p q hlq
    have hlen : (l ++ [p, q]).length = l.length + 2 := by simp
    have h1 : (l ++ [p, q])[(l ++ [p, q]).length - 1]? = some q := by
      rw [hlen, show l.length + 2 - 1 = l.length + 1 from rfl,
        List.getElem?_append_right (by omega)]
      simp
    have h2 : (l ++ [p, q])[(l ++ [p, q]).length - 2]? = some p := by
      rw [hlen, show l.length + 2 - 2 = l.length from by omega,
        List.getElem?_append_right (by omega)]
      simp
    have hgt : (l ++ [p, q]).length > 1 := by rw [hlen]; omega
    simp only [resolvePosition, hlq, h1, h2, hgt, if_pos]

/-- The three chained SetPosition events of the specification example
(frames 10, 50, 90). -/
def pe1 : TimelineEvent :=
  ⟨"e1", 10, "GlassPanel", "SetPosition", [("x", 0), ("y", 0)], none⟩

def pe2 : TimelineEvent :=
  ⟨"e2", 50, "GlassPanel", "SetPosition", [("x", 100), ("y", 0)], none⟩

def pe3 : TimelineEvent :=
  ⟨"e3", 90, "GlassPanel", "SetPosition", [("x", 100), ("y", 200)], none⟩

/-- Document holding the three chained position events. -/
def chainDoc : TimelineData := ⟨1, 60, 360, none, [pe1, pe2, pe3]⟩

theorem position_chains_last_two_witness :
    resolvePosition sfHalf chainDoc 60 200 3840 536 = some (100, 100) := by
  have h := (position_chains_last_two sfHalf chainDoc 60 200 3840 536).2.2
    [pe1] pe2 pe3 (by decide)
  rw [h]
  norm_num [getParam, pe2, pe3, List.lookup, sfHalf,
    show ("y" == "x") = false from by decide]

/-- Abstract JSON value, the shape of a successfully parsed request body. -/
inductive Json where
  | null : Json
  | bool : Bool → Json
  | num : ℚ → Json
  | str : String → Json
  | arr : List Json → Json
  | obj : List (String × Json) → Json

/-- Field lookup in a JSON object literal. -/
def jsonField (fields : List (String × Json)) (k : String) : Option Json :=
  fields.lookup k

/-- HTTP outcome of the POST branch of the timeline API middleware. -/
inductive PostResponse where
  | ok
  | badRequest
deriving DecidableEq

/-- POST branch of the `/api/timeline` middleware (timeline-editor vite
config): the body goes through `JSON.parse` inside a try block, modelled here
by its outcome; on success (`some`) the raw body is persisted and the server
answers 200, on a parse exception (`none`) it answers 400.  No schema check
of any kind is performed on the parsed value. -/
def timelinePostResponse : Option Json → PostResponse
  | some _ => PostResponse.ok
  | none => PostResponse.badRequest

/-- Validity of a timeline document per the claim: `fps` and `durationFrames`
present, numeric and positive, and an `events` array present. -/
def specValidTimelineJson : Json → Bool
  | Json.obj fields =>
      (match jsonField fields "fps" with
       | some (Json.num q) => decide (0 < q)
       | _ => false) &&
      (match jsonField fields "durationFrames" with
       | some (Json.num q) => decide (0 < q)
       | _ => false) &&
      (match jsonField fields "events" with
       | some (Json.arr _) => true
       | _ => false)
  | _ => false

/-- Composition registration parameters, as passed in Root.tsx. -/
structure CompositionProps where
  durationInFrames : ℤ
  fps : ℤ
  width : ℚ
  height : ℚ
deriving DecidableEq

/-- Root.tsx: the Dashboard composition is registered with `durationInFrames`
and `fps` read directly off the imported timeline document (cast, not
validated) and the canvas size from `DESIGN_SYSTEM_DEFAULTS`. -/
def rootComposition (d : TimelineData) : CompositionProps :=
  ⟨d.durationFrames, d.fps, 3840, 536⟩

/-- A syntactically valid JSON body that is not a timeline document. -/
def malformedJson : Json := Json.obj [("foo", Json.num 1)]

/-- C6 counterexample: the save endpoint answers 200 and persists a JSON body
that fails every timeline-document requirement (no `fps`, no
`durationFrames`, no `events`), instead of rejecting the document load. -/
theorem malformed_document_accepted :
    timelinePostResponse (some malformedJson) = PostResponse.ok ∧
    specValidTimelineJson malformedJson = false :=
  ⟨rfl, by decide⟩

/-- C6 amended: the system performs no field-level validation of timeline
documents.  The save endpoint accepts every syntactically valid JSON body and
rejects only unparsable ones, and the render root registers the composition
with whatever `fps` and `durationFrames` the document carries, including
non-positive values. -/
theorem timeline_load_unvalidated (j : Json) (d : TimelineData) :
    timelinePostResponse (some j) = PostResponse.ok ∧
    timelinePostResponse none = PostResponse.badRequest ∧
    (rootComposition d).fps = d.fps ∧
    (rootComposition d).durationInFrames = d.durationFrames :=
  ⟨rfl, rfl, rfl, rfl⟩

/-- A spring config invalid per the spec: non-positive stiffness. -/
def badSpringCfg : SpringConfig := ⟨0, 24, 1⟩

/-- An Expand event carrying the invalid spring config, firing at frame 0. -/
def badCfgEvt : TimelineEvent :=
  ⟨"b1", 0, "GlassPanel", "Expand", [], some badSpringCfg⟩

/-- Document whose only event carries the invalid spring config. -/
def badCfgDoc : TimelineData := ⟨1, 60, 360, none, [badCfgEvt]⟩

/-- A spring evaluator returning 0 on configs with non-positive stiffness or
mass and 1 elsewhere. -/
def sfInvalidZero : SpringFn :=
  fun _ _ c => if c.stiffness ≤ 0 ∨ c.mass ≤ 0 then 0 else 1

/-- A spring evaluator returning 1 everywhere; it agrees with `sfInvalidZero`
on every config with positive stiffness and mass. -/
def sfInvalidOne : SpringFn :=
  fun _ _ c => if c.stiffness ≤ 0 ∨ c.mass ≤ 0 then 1 else 1

/-- C7 counterexample: at a document carrying a non-positive-stiffness config
the resolved state differs between two spring evaluators that agree on all
valid configs.  Hence the invalid config is handed to the spring evaluator
and its value propagates into the rendered state; nothing fails fast at load
or first use. -/
theorem invalid_spring_config_used :
    (resolveState sfInvalidZero badCfgDoc 60 30 3840 536).sizeMultiplier = 1 ∧
    (resolveState sfInvalidOne badCfgDoc 60 30 3840 536).sizeMultiplier = 9 / 5 ∧
    (resolveState sfInvalidZero badCfgDoc 60 30 3840 536).sizeMultiplier
      ≠ (resolveState sfInvalidOne badCfgDoc 60 30 3840 536).sizeMultiplier := by
  have he : expandEvents badCfgDoc 30 = [badCfgEvt] := by decide
  have hc : collapseEvents badCfgDoc 30 = [] := by decide
  have h0 : (resolveState sfInvalidZero badCfgDoc 60 30 3840 536).sizeMultiplier
      = 1 := by
    show UiStudio.sizeMultiplier sfInvalidZero badCfgDoc 60 30 = 1
    norm_num [sizeMultiplier, netExpansion, expandSum, collapseSum, he, hc,
      springSum, sfInvalidZero, cfgOf, badCfgEvt, badSpringCfg]
  have h1 : (resolveState sfInvalidOne badCfgDoc 60 30 3840 536).sizeMultiplier
      = 9 / 5 := by
    show UiStudio.sizeMultiplier sfInvalidOne badCfgDoc 60 30 = 9 / 5
    norm_num [sizeMultiplier, netExpansion, expandSum, collapseSum, he, hc,
      springSum, sfInvalidOne, cfgOf, badCfgEvt, badSpringCfg]
  refine ⟨h0, h1, ?_⟩
  rw [h0, h1]
  norm_num

/-- C7 amended: spring configs are never validated; for the document above
the accumulated progress is the clamp of whatever the evaluator returns for
the invalid config, which then scales the rendered size. -/
theorem invalid_spring_config_flows_through (sf : SpringFn) (fps : ℤ) (t : ℕ)
    (w h : ℚ) :
    (resolveState sf badCfgDoc fps t w h).sizeMultiplier
      = 1 + max 0 (min 1 (sf fps (t : ℤ) badSpringCfg)) * (4 / 5) := by
  have he : expandEvents badCfgDoc t = [badCfgEvt] := by
    simp [expandEvents, glassEvents, badCfgDoc, badCfgEvt, Nat.zero_le]
  have hc : collapseEvents badCfgDoc t = [] := by
    simp [collapseEvents, glassEvents, badCfgDoc, badCfgEvt]
  show UiStudio.sizeMultiplier sf badCfgDoc fps t
      = 1 + max 0 (min 1 (sf fps (t : ℤ) badSpringCfg)) * (4 / 5)
  simp [sizeMultiplier, netExpansion, expandSum, collapseSum, he, hc,
    springSum, cfgOf, badCfgEvt, badSpringCfg]

/-- Outcome of the MultiPassRenderer construction (the try block). -/
inductive CtorOutcome where
  | ok
  | fail
deriving DecidableEq

/-- Outcome of the asynchronous background texture load. -/
inductive TexOutcome where
  | ok
  | fail
deriving DecidableEq

/-- Observable actions of the GPU setup effect of App (designSystem.ts). -/
inductive GlAction where
  | constructRenderer
  | startTextureLoad
  | setTexture
  | renderFrame
  | callOnReady
  | uncaughtThrow
deriving DecidableEq

/-- Trace of the GPU setup effect in App, by transcription of its control
flow: the renderer construction sits in a try block whose catch calls
`onReady` and returns; on success the background texture load is started and
its continuation stores the texture, renders once and calls `onReady`, while
its catch handler calls `onReady`.  `uncaughtThrow` stands for an exception
escaping the effect; no branch emits it. -/
def glSetupTrace : CtorOutcome → TexOutcome → List GlAction
  | CtorOutcome.fail, _ =>
      [GlAction.constructRenderer, GlAction.callOnReady]
  | CtorOutcome.ok, TexOutcome.ok =>
      [GlAction.constructRenderer, GlAction.startTextureLoad,
       GlAction.setTexture, GlAction.renderFrame, GlAction.callOnReady]
  | CtorOutcome.ok, TexOutcome.fail =>
      [GlAction.constructRenderer, GlAction.startTextureLoad,
       GlAction.callOnReady]

/-- C8: whatever the outcomes of renderer construction and texture load, the
readiness signal is delivered exactly once and no exception escapes the host
component. -/
theorem gpu_failure_still_signals_ready (c : CtorOutcome) (tex : TexOutcome) :
    (glSetupTrace c tex).count GlAction.callOnReady = 1 ∧
    (glSetupTrace c tex).count GlAction.uncaughtThrow = 0 := by
  cases c <;> cases tex <;> exact ⟨by decide, by decide⟩

/-- A declared shader pass: name, texture inputs as a mapping from uniform
name to producing pass name, and whether it renders to the screen sink.  The
source omits `outputToScreen` for the first three passes; the absent
(undefined) flag is falsy, modelled as `false`. -/
structure PassDecl where
  name : String
  inputs : List (String × String)
  outputToScreen : Bool
deriving DecidableEq

/-- The pass list handed to the MultiPassRenderer constructor in App
(designSystem.ts lines 369-374). -/
def dashboardPasses : List PassDecl :=
  [⟨"bgPass", [], false⟩,
   ⟨"vBlurPass", [("u_prevPassTexture", "bgPass")], false⟩,
   ⟨"hBlurPass", [("u_prevPassTexture", "vBlurPass")], false⟩,
   ⟨"mainPass", [("u_blurredBg", "hBlurPass"), ("u_bg", "bgPass")], true⟩]

/-- Walk the declared pass list carrying the names already declared; each
pass may only reference already-seen producer names. -/
def inputsResolveEarlierAux : List String → List PassDecl → Bool
  | _, [] => true
  | seen, p :: ps =>
      p.inputs.all (fun inp => seen.contains inp.2) &&
        inputsResolveEarlierAux (seen ++ [p.name]) ps

/-- Every input of every pass references a pass declared strictly earlier. -/
def inputsResolveEarlier (ps : List PassDecl) : Bool :=
  inputsResolveEarlierAux [] ps

/-- Modelled from the spec: the MultiPassRenderer implementation (GLUtils,
not included under src/) resolves pass order by declaration order, not by a
dynamic topological sort, so the declared sequence of pass names is the
execution order. -/
def executionOrder (ps : List PassDecl) : List String :=
  ps.map PassDecl.name

/-- C9: the pass graph declares exactly the four passes bgPass, vBlurPass,
hBlurPass, mainPass in this order; vBlurPass reads bgPass, hBlurPass reads
vBlurPass, mainPass reads hBlurPass and bgPass; every input references a
strictly earlier pass; only the final pass outputs to the screen; and the
execution order is the declared sequence. -/
theorem pass_graph_well_formed :
    dashboardPasses.map PassDecl.name
        = ["bgPass", "vBlurPass", "hBlurPass", "mainPass"] ∧
    dashboardPasses.map PassDecl.inputs
        = [[], [("u_prevPassTexture", "bgPass")],
           [("u_prevPassTexture", "vBlurPass")],
           [("u_blurredBg", "hBlurPass"), ("u_bg", "bgPass")]] ∧
    inputsResolveEarlier dashboardPasses = true ∧
    (dashboardPasses.filter PassDecl.outputToScreen).map PassDecl.name
        = ["mainPass"] ∧
    executionOrder dashboardPasses
        = ["bgPass", "vBlurPass", "hBlurPass", "mainPass"] :=
  ⟨by decide, by decide, by decide, by decide, by decide⟩

end UiStudio
